import Mathlib

/-!
# Verification of the revenue-forecasting core

Shallow embedding of the algorithmic core of the revenue-forecasting
repository (`src/data_processing.py`, `src/statistical_analysis.py`,
and the scenario / baseline logic of `scripts/app.py`), together with
theorems settling the specification claims.

Modelling conventions:
* Python floats are modelled as exact rationals (`ℚ`); operations whose
  float result is non-finite (`NaN` / `inf`, e.g. the mean of an empty
  series or a division by zero) are modelled with `Option ℚ`, `none`
  standing for the non-finite value.  Float comparisons against `NaN`
  are false, which the `Option` matches reproduce explicitly.
* `np.sqrt` is modelled as `Real.sqrt` (the ideal real square root), so
  quantities downstream of a square root live in `ℝ`.
* Library routines whose numeric output the claims never constrain
  (`scipy.stats.ttest_ind`, `scipy.stats.t.ppf`, `scipy.stats.norm.ppf`,
  the numeric value returned by `scipy.stats.pearsonr`) are abstracted
  as function parameters; their *error behaviour*, where a claim depends
  on it, is modelled concretely.
* A pandas `DataFrame` column is a `List (Option ℚ)` (`none` = missing /
  `NaN`); a series with no missing entries is a `List ℚ`.
-/

namespace RevForecast

/-! ## Basic numpy / pandas statistics -/

/-- `np.mean` on a list of floats; on the empty list the float result is
`NaN`, here the `ℚ` division by zero yields `0` — callers that can see an
empty list go through `seriesMean` instead. -/
def npMean (xs : List ℚ) : ℚ := xs.sum / xs.length

/-- `pandas.Series.mean` (also `np.mean` where emptiness matters):
`none` models the `NaN` produced on an empty series. -/
def seriesMean (xs : List ℚ) : Option ℚ :=
  if xs.isEmpty then none else some (npMean xs)

/-- Sample variance with `ddof = 1` (the square of `pandas.Series.std`). -/
def sampleVar (xs : List ℚ) : ℚ :=
  (xs.map (fun x => (x - npMean xs) ^ 2)).sum / ((xs.length : ℚ) - 1)

/-- Population variance with `ddof = 0` (the square of `np.std`). -/
def popVar (xs : List ℚ) : ℚ :=
  (xs.map (fun x => (x - npMean xs) ^ 2)).sum / (xs.length : ℚ)

/-- `np.std` (population standard deviation, `ddof = 0`). -/
noncomputable def npStd (xs : List ℚ) : ℝ := Real.sqrt (popVar xs)

/-! ## `statistical_analysis.test_promotion_impact`

Rows are `(sales, promo_count)` pairs, one per date. -/

/-- `df[df['promo_count'] > 0]['sales']`. -/
def promoDays (rows : List (ℚ × ℚ)) : List ℚ :=
  (rows.filter (fun r => decide (0 < r.2))).map Prod.fst

/-- `df[df['promo_count'] == 0]['sales']`. -/
def noPromoDays (rows : List (ℚ × ℚ)) : List ℚ :=
  (rows.filter (fun r => decide (r.2 = 0))).map Prod.fst

/-- The pooled-variance expression
`((n1-1)*std1**2 + (n2-1)*std2**2) / (n1+n2-2)`; `std**2` is the sample
variance. -/
def pooledVarQ (a b : List ℚ) : ℚ :=
  (((a.length : ℚ) - 1) * sampleVar a + ((b.length : ℚ) - 1) * sampleVar b) /
    ((a.length : ℚ) + (b.length : ℚ) - 2)

/-- `pooled_std = np.sqrt(pooledVarQ)`. -/
noncomputable def pooledStd (a b : List ℚ) : ℝ := Real.sqrt (pooledVarQ a b)

/-- `cohens_d = (mean_A - mean_B) / pooled_std`. -/
noncomputable def cohensD (a b : List ℚ) : ℝ :=
  ((npMean a - npMean b : ℚ) : ℝ) / pooledStd a b

/-- `"large" if abs(d) > 0.8 else "medium" if abs(d) > 0.5 else "small"`. -/
noncomputable def effectSizeOf (d : ℝ) : String :=
  if 0.8 < |d| then "large" else if 0.5 < |d| then "medium" else "small"

/-- `lift = ((mean_A - mean_B) / mean_B) * 100`; `none` models the
non-finite float (`inf` / `NaN`) produced when the denominator is zero. -/
def liftPercentage (ma mb : ℚ) : Option ℚ :=
  if mb = 0 then none else some ((ma - mb) / mb * 100)

/-- The dict returned by `test_promotion_impact` on the success path. -/
structure PromoImpact where
  t_statistic : ℚ
  p_value : ℚ
  significant : Bool
  promo_mean : ℚ
  no_promo_mean : ℚ
  lift_percentage : Option ℚ
  cohens_d : ℝ
  effect_size : String

/-- `test_promotion_impact(df)`.  `ttest` abstracts
`scipy.stats.ttest_ind` (its numeric output is unconstrained by the
claims).  The `{"error": ...}` dict is the `Except.error` constructor. -/
noncomputable def test_promotion_impact (ttest : List ℚ → List ℚ → ℚ × ℚ)
    (rows : List (ℚ × ℚ)) : Except String PromoImpact :=
  let promo_days := promoDays rows
  let no_promo_days := noPromoDays rows
  if promo_days.length = 0 ∨ no_promo_days.length = 0 then
    .error "Insufficient data for comparison"
  else
    let tp := ttest promo_days no_promo_days
    let d := cohensD promo_days no_promo_days
    let promo_mean := npMean promo_days
    let no_promo_mean := npMean no_promo_days
    .ok { t_statistic := tp.1
          p_value := tp.2
          significant := decide (tp.2 < 5 / 100)
          promo_mean := promo_mean
          no_promo_mean := no_promo_mean
          lift_percentage := liftPercentage promo_mean no_promo_mean
          cohens_d := d
          effect_size := effectSizeOf d }

/-! ## `statistical_analysis.test_holiday_impact`

Rows are `(sales, is_holiday)` pairs, one per date. -/

/-- `df[df['is_holiday'] == 1]['sales']`. -/
def holidayDays (rows : List (ℚ × ℚ)) : List ℚ :=
  (rows.filter (fun r => decide (r.2 = 1))).map Prod.fst

/-- `df[df['is_holiday'] == 0]['sales']`. -/
def regularDays (rows : List (ℚ × ℚ)) : List ℚ :=
  (rows.filter (fun r => decide (r.2 = 0))).map Prod.fst

/-- `lift = ((holiday_mean - regular_mean) / regular_mean) * 100 if
regular_mean > 0 else 0`; a `NaN` mean (empty group) compares false, so
the guard also sends it to `0`. -/
def holidayLift (hm rm : Option ℚ) : ℚ :=
  match hm, rm with
  | some a, some b => if 0 < b then (a - b) / b * 100 else 0
  | _, _ => 0

/-- The dict returned by `test_holiday_impact` on the success path. -/
structure HolidayImpact where
  t_statistic : ℚ
  p_value : ℚ
  significant : Bool
  holiday_mean : Option ℚ
  regular_mean : Option ℚ
  lift_percentage : ℚ

/-- `test_holiday_impact(df)`.  Only the emptiness of the *holiday*
group is checked by the source; an empty regular group flows through
(`ttest_ind` and the means yield `NaN`, the lift guard yields `0`). -/
def test_holiday_impact (ttest : List ℚ → List ℚ → ℚ × ℚ)
    (rows : List (ℚ × ℚ)) : Except String HolidayImpact :=
  let holiday_days := holidayDays rows
  let regular_days := regularDays rows
  if holiday_days.length = 0 then
    .error "No holiday data available"
  else
    let tp := ttest holiday_days regular_days
    let hm := seriesMean holiday_days
    let rm := seriesMean regular_days
    .ok { t_statistic := tp.1
          p_value := tp.2
          significant := decide (tp.2 < 5 / 100)
          holiday_mean := hm
          regular_mean := rm
          lift_percentage := holidayLift hm rm }

/-! ## `data_processing.engineer_features`: lag / rolling / fill pipeline

The daily `sales` series (after the groupby-sum aggregation) has no
missing entries, so it is a `List ℚ`; derived columns carry `NaN`s and
are `List (Option ℚ)`. -/

/-- `Series.shift(k)`: positional shift introducing `k` leading `NaN`s. -/
def shiftCol (k : ℕ) (xs : List ℚ) : List (Option ℚ) :=
  List.replicate (min k xs.length) none ++ (xs.take (xs.length - k)).map some

/-- The length-`w` window of positions ending at index `i` (the window
pandas `rolling(w)` aggregates at row `i` once `w ≤ i + 1`);
out-of-range reads, never hit under that guard, give `none`. -/
def rollWindow (w i : ℕ) (xs : List (Option ℚ)) : List (Option ℚ) :=
  (List.range w).map (fun j => xs.getD (i + 1 - w + j) none)

/-- `Series.rolling(w).agg(...)`: the value at row `i` is defined once
the full window of `w` observations exists and is `NaN`-free (pandas
default `min_periods = w`), else `NaN`. -/
def rollingAgg (w : ℕ) (agg : List ℚ → ℚ) (xs : List (Option ℚ)) :
    List (Option ℚ) :=
  (List.range xs.length).map (fun i =>
    if w ≤ i + 1 ∧ (rollWindow w i xs).all Option.isSome then
      some (agg ((rollWindow w i xs).reduceOption))
    else none)

/-- Forward fill of one column, carrying the last valid value. -/
def ffillAux : Option ℚ → List (Option ℚ) → List (Option ℚ)
  | _, [] => []
  | _, some v :: rest => some v :: ffillAux (some v) rest
  | last, none :: rest => last :: ffillAux last rest

/-- `df.ffill()` on one column. -/
def ffillCol (xs : List (Option ℚ)) : List (Option ℚ) := ffillAux none xs

/-- `df.bfill()` on one column: each `NaN` takes the next valid value
below it, i.e. forward fill of the reversed column. -/
def bfillCol (xs : List (Option ℚ)) : List (Option ℚ) :=
  (ffillCol xs.reverse).reverse

/-- `df.fillna(0)` on one column. -/
def fillZero (xs : List (Option ℚ)) : List (Option ℚ) :=
  xs.map (fun x => some (x.getD 0))

/-- The single final imputation line of `engineer_features`:
`df = df.bfill().ffill().fillna(0)` — backward fill, then forward fill,
then zero fill, in that order, applied to every column at once. -/
def fillPipeline (xs : List (Option ℚ)) : List (Option ℚ) :=
  fillZero (ffillCol (bfillCol xs))

/-- The `lag_k` column of the returned feature table:
`df["sales"].shift(k)` followed by the final imputation pass. -/
def lagCol (k : ℕ) (sales : List ℚ) : List (Option ℚ) :=
  fillPipeline (shiftCol k sales)

/-- The `roll_mean_w` column of the returned feature table:
`df["sales"].shift(1).rolling(w).mean()` followed by the final
imputation pass. -/
def rollMeanCol (w : ℕ) (sales : List ℚ) : List (Option ℚ) :=
  fillPipeline (rollingAgg w (fun v => v.sum / v.length) (shiftCol 1 sales))

/-! ## `data_processing.split_train_test` -/

/-- `split_train_test(df, split_date)`: `df.loc[:split_date]` and
`df.loc[split_date:]` on the sorted date index — pandas label slicing
is inclusive at both endpoints.  Dates are day ordinals; a row is
`(date, value)`. -/
def split_train_test (df : List (ℕ × ℚ)) (split_date : ℕ) :
    List (ℕ × ℚ) × List (ℕ × ℚ) :=
  (df.filter (fun r => decide (r.1 ≤ split_date)),
   df.filter (fun r => decide (split_date ≤ r.1)))

/-! ## `scripts/app.py`: scenario transform -/

/-- One row of the model-facing feature table, the 15 columns of
`get_feature_columns()`. -/
structure FeatureRow where
  oil_price : ℚ
  promo_count : ℚ
  is_holiday : ℚ
  is_weekend : ℚ
  year : ℚ
  month : ℚ
  day_of_week : ℚ
  quarter : ℚ
  lag_1 : ℚ
  lag_7 : ℚ
  lag_30 : ℚ
  roll_mean_7 : ℚ
  roll_mean_30 : ℚ
  roll_std_7 : ℚ
  roll_std_30 : ℚ
  deriving DecidableEq

/-- Lines 269–271 of `scripts/app.py`, per row: scale `promo_count` by
`(1 + promo_change/100)` and `oil_price` by `(1 + oil_change/100)`. -/
def scenarioRow (promo_change oil_change : ℚ) (r : FeatureRow) : FeatureRow :=
  { r with promo_count := r.promo_count * (1 + promo_change / 100)
           oil_price := r.oil_price * (1 + oil_change / 100) }

/-- The scenario feature table built from `X_test.copy()`. -/
def scenario_df (promo_change oil_change : ℚ) (df : List FeatureRow) :
    List FeatureRow :=
  df.map (scenarioRow promo_change oil_change)

/-! ## `scripts/app.py`: baseline predictor padding -/

/-- Python `xs[-n:]` — note `xs[-0:]` is the whole list. -/
def takeLastPy (xs : List ℚ) (n : ℕ) : List ℚ :=
  if n = 0 then xs else xs.drop (xs.length - n)

/-- `np.pad(xs, (0, k), mode='edge')`: append `k` copies of the last
element; `none` models the error numpy raises on an empty array. -/
def padEdge (xs : List ℚ) (k : ℕ) : Option (List ℚ) :=
  xs.getLast?.map (fun v => xs ++ List.replicate k v)

/-- Lines 131–137 of `scripts/app.py` (`get_trained_models`): the
baseline prediction is the tail of the `lag_1` column, edge-padded when
shorter than `test_size`, then truncated to `test_size`. -/
def baselinePred (lag1 : List ℚ) (test_size : ℕ) : Option (List ℚ) :=
  let b := takeLastPy lag1 test_size
  if b.length < test_size then
    (padEdge b (max 0 (test_size - b.length))).map (fun p => p.take test_size)
  else
    some (b.take test_size)

/-! ## `statistical_analysis.calculate_confidence_interval` -/

/-- `scipy.stats.sem` (`ddof = 1`), i.e. sample std divided by `√n`:
`NaN` (`none`) unless `n ≥ 2` (for `n ≤ 1` the `0/0` in the sample
variance makes the float result `NaN`). -/
noncomputable def semOpt (xs : List ℚ) : Option ℝ :=
  if xs.length < 2 then none
  else some (Real.sqrt (sampleVar xs) / Real.sqrt (xs.length : ℝ))

/-- The tuple `(lower, upper, mean, std_error)` returned by
`calculate_confidence_interval`; `none` components model `NaN`s. -/
structure CIResult where
  lower : Option ℝ
  upper : Option ℝ
  mean : Option ℚ
  std_error : Option ℝ

/-- `calculate_confidence_interval(values, confidence)`.  `tppf`
abstracts `scipy.stats.t.ppf(q, df)` (float-valued, hence `ℚ`-valued);
`NaN` propagation through `h = std_err * t.ppf(...)` and `mean ∓ h` is
the `Option` plumbing.  There is no early return: the tuple is built
unconditionally. -/
noncomputable def calculate_confidence_interval (tppf : ℚ → ℤ → ℚ)
    (values : List ℚ) (confidence : ℚ) : CIResult :=
  let m := seriesMean values
  let se := semOpt values
  let h := se.map (fun s =>
    s * ((tppf ((1 + confidence) / 2) ((values.length : ℤ) - 1) : ℚ) : ℝ))
  { lower := Option.map₂ (fun (a : ℚ) (b : ℝ) => (a : ℝ) - b) m h
    upper := Option.map₂ (fun (a : ℚ) (b : ℝ) => (a : ℝ) + b) m h
    mean := m
    std_error := se }

/-! ## `statistical_analysis.calculate_correlations` -/

/-- One row of the correlation table built by `calculate_correlations`. -/
structure CorrRow where
  feature : String
  correlation : Option ℚ
  p_value : Option ℚ
  significant : Bool
  strength : ℚ
  deriving DecidableEq

/-- `Series.dropna()`: keep the non-missing entries, in order. -/
def dropNA (xs : List (Option ℚ)) : List ℚ := xs.reduceOption

/-- `scipy.stats.pearsonr(x, y)`: raises (`Except.error`) when the two
inputs have different lengths, or fewer than 2 points; the numeric
`(correlation, p-value)` of the valid case is abstracted by `pr`. -/
def pearsonr (pr : List ℚ → List ℚ → ℚ × ℚ) (x y : List ℚ) :
    Except String (ℚ × ℚ) :=
  if x.length ≠ y.length then .error "x and y must have the same length."
  else if x.length < 2 then .error "x and y must have length at least 2."
  else .ok (pr x y)

/-- The per-feature loop of `calculate_correlations`: a feature with
more than 10 non-missing observations goes through
`pearsonr(df[target].dropna(), df[col].dropna())` — note the two
independent `dropna()` calls — and an exception raised there propagates
out of the whole call; otherwise the feature records `(NaN, NaN)`. -/
def corrLoop (pr : List ℚ → List ℚ → ℚ × ℚ) (target : List (Option ℚ)) :
    List (String × List (Option ℚ)) →
      Except String (List (String × Option ℚ × Option ℚ))
  | [] => .ok []
  | (name, col) :: rest =>
    if 10 < (col.filter (fun x => x.isSome)).length then
      match pearsonr pr (dropNA target) (dropNA col) with
      | .error e => .error e
      | .ok cp =>
        (corrLoop pr target rest).map (fun acc => (name, some cp.1, some cp.2) :: acc)
    else
      (corrLoop pr target rest).map (fun acc => (name, none, none) :: acc)

/-- Assembling the result rows: `Significant = p < 0.05` (false on
`NaN`), `Strength = abs(corr)` with `NaN ↦ 0`. -/
def corrRows (entries : List (String × Option ℚ × Option ℚ)) : List CorrRow :=
  entries.map (fun e =>
    { feature := e.1
      correlation := e.2.1
      p_value := e.2.2
      significant := match e.2.2 with
        | some p => decide (p < 5 / 100)
        | none => false
      strength := match e.2.1 with
        | some c => |c|
        | none => 0 })

/-- `calculate_correlations(df, target_col, top_n)`: the feature loop,
then `sort_values('Strength', ascending=False).head(top_n)`. -/
def calculate_correlations (pr : List ℚ → List ℚ → ℚ × ℚ)
    (target : List (Option ℚ)) (features : List (String × List (Option ℚ)))
    (top_n : ℕ) : Except String (List CorrRow) :=
  (corrLoop pr target features).map (fun entries =>
    ((corrRows entries).mergeSort (fun a b => decide (b.strength ≤ a.strength))).take top_n)

/-! ## `statistical_analysis.forecast_confidence_intervals` -/

/-- One row of the interval table. -/
structure ForecastInterval where
  forecast : ℚ
  lower_bound : ℝ
  upper_bound : ℝ
  confidence_level : ℚ

/-- `forecast_confidence_intervals(forecasts, historical_errors,
confidence)`; `zppf` abstracts `scipy.stats.norm.ppf`.  The source
computes `error_mean = np.mean(historical_errors)` and never uses it;
the margin is `z · np.std(errors)` and every interval is
`(forecast - margin, forecast + margin)`. -/
noncomputable def forecast_confidence_intervals (zppf : ℚ → ℚ)
    (forecasts historical_errors : List ℚ) (confidence : ℚ) :
    List ForecastInterval :=
  let error_std := npStd historical_errors
  let _error_mean := npMean historical_errors
  let margin := ((zppf ((1 + confidence) / 2) : ℚ) : ℝ) * error_std
  forecasts.map (fun f =>
    { forecast := f
      lower_bound := (f : ℝ) - margin
      upper_bound := (f : ℝ) + margin
      confidence_level := confidence })

/-! ## Theorems -/

/-- C1 (amended): the two-group tests return an error-tagged result
*only* on empty groups — the promotion test errors exactly when the
promotion group or the no-promotion group is empty, and the holiday
test errors exactly when the holiday group is empty.  Neither test
errors on a zero lift denominator, and the holiday test does not error
on an empty regular group. -/
theorem error_tag_iff_empty_group (ttest : List ℚ → List ℚ → ℚ × ℚ)
    (rows : List (ℚ × ℚ)) :
    ((test_promotion_impact ttest rows).isOk = true ↔
      (promoDays rows ≠ [] ∧ noPromoDays rows ≠ [])) ∧
    ((test_holiday_impact ttest rows).isOk = true ↔ holidayDays rows ≠ []) := by
  constructor
  · rw [test_promotion_impact]
    by_cases h : (promoDays rows).length = 0 ∨ (noPromoDays rows).length = 0
    · rw [if_pos h]
      refine iff_of_false Bool.false_ne_true ?_
      rintro ⟨ha, hb⟩
      rcases h with h | h
      · exact ha (List.length_eq_zero.mp h)
      · exact hb (List.length_eq_zero.mp h)
    · rw [if_neg h]
      push_neg at h
      exact iff_of_true rfl ⟨fun hl => h.1 (by simp [hl]), fun hl => h.2 (by simp [hl])⟩
  · rw [test_holiday_impact]
    by_cases h : (holidayDays rows).length = 0
    · rw [if_pos h]
      exact iff_of_false Bool.false_ne_true fun ha => ha (List.length_eq_zero.mp h)
    · rw [if_neg h]
      exact iff_of_true rfl fun hl => h (by simp [hl])

/-- C1 counterexample: on the table with rows
(sales 5, promo 1), (sales 0, promo 0), both groups are non-empty and
the lift denominator — the mean of the no-promotion group — is zero,
yet `test_promotion_impact` returns a result with no error tag (the
float lift is non-finite instead).  This refutes the claim that a zero
denominator yields an error-tagged result. -/
theorem promo_zero_denominator_not_error :
    npMean (noPromoDays [((5 : ℚ), (1 : ℚ)), (0, 0)]) = 0 ∧
    (test_promotion_impact (fun _ _ => (0, 0)) [(5, 1), (0, 0)]).isOk = true := by
  constructor
  · norm_num [noPromoDays, npMean, List.filter]
  · rw [test_promotion_impact, if_neg (by norm_num [promoDays, noPromoDays, List.filter])]
    rfl

/-- Helper: `getD` through `map` at an in-range index. -/
theorem getD_map_of_lt {α β : Type} (f : α → β) (l : List α) (i : ℕ) (d : β)
    (d' : α) (h : i < l.length) : (l.map f).getD i d = f (l.getD i d') := by
  simp [List.getD_eq_getElem?_getD, List.getElem?_map, List.getElem?_eq_getElem h]

/-- Helper: `reduceOption` undoes `map some`. -/
theorem reduceOption_map_some {α : Type} (l : List α) :
    (l.map some).reduceOption = l := by
  induction l with
  | nil => rfl
  | cons x xs ih => simp [List.reduceOption_cons_of_some, ih]

/-- C6: the chronological split keeps exactly the rows with date `≤`
cutoff in `train` and exactly those with date `≥` cutoff in `test`; a
row dated at the cutoff therefore belongs to both. -/
theorem split_cutoff_in_both (df : List (ℕ × ℚ)) (cutoff : ℕ) (x : ℚ)
    (h : (cutoff, x) ∈ df) :
    ((cutoff, x) ∈ (split_train_test df cutoff).1 ∧
     (cutoff, x) ∈ (split_train_test df cutoff).2) ∧
    (∀ r : ℕ × ℚ, r ∈ (split_train_test df cutoff).1 ↔ r ∈ df ∧ r.1 ≤ cutoff) ∧
    (∀ r : ℕ × ℚ, r ∈ (split_train_test df cutoff).2 ↔ r ∈ df ∧ cutoff ≤ r.1) := by
  refine ⟨⟨?_, ?_⟩, ?_, ?_⟩ <;> simp [split_train_test, List.mem_filter, h]

/-- Witness for C6 at the two-row table `[(1, 10), (2, 20)]` with
cutoff date `2`. -/
theorem split_cutoff_in_both_witness :
    ((2 : ℕ), (20 : ℚ)) ∈ [((1 : ℕ), (10 : ℚ)), (2, 20)] ∧
    ((((2 : ℕ), (20 : ℚ)) ∈ (split_train_test [(1, 10), (2, 20)] 2).1 ∧
      ((2 : ℕ), (20 : ℚ)) ∈ (split_train_test [(1, 10), (2, 20)] 2).2) ∧
     (∀ r : ℕ × ℚ, r ∈ (split_train_test [(1, 10), (2, 20)] 2).1 ↔
        r ∈ [((1 : ℕ), (10 : ℚ)), (2, 20)] ∧ r.1 ≤ 2) ∧
     (∀ r : ℕ × ℚ, r ∈ (split_train_test [(1, 10), (2, 20)] 2).2 ↔
        r ∈ [((1 : ℕ), (10 : ℚ)), (2, 20)] ∧ 2 ≤ r.1)) :=
  ⟨by simp, split_cutoff_in_both [(1, 10), (2, 20)] 2 20 (by simp)⟩

/-- A sample feature row used by concrete witnesses. -/
def sampleFeatureRow : FeatureRow :=
  ⟨50, 40, 0, 1, 2017, 3, 5, 1, 100, 110, 120, 105, 115, 8, 9⟩

/-- C7: the scenario transform multiplies exactly the `promo_count` and
`oil_price` columns by `(1 + pct/100)`, leaves the 13 other columns of
every row unchanged, and with both percentages zero it is the identity
on the feature table. -/
theorem scenario_transform_exact (p o : ℚ) (df : List FeatureRow) :
    scenario_df 0 0 df = df ∧
    (scenario_df p o df).length = df.length ∧
    ∀ (d : FeatureRow) (i : ℕ), i < df.length →
      ((scenario_df p o df).getD i d).promo_count
          = (df.getD i d).promo_count * (1 + p / 100) ∧
      ((scenario_df p o df).getD i d).oil_price
          = (df.getD i d).oil_price * (1 + o / 100) ∧
      ((scenario_df p o df).getD i d).is_holiday = (df.getD i d).is_holiday ∧
      ((scenario_df p o df).getD i d).is_weekend = (df.getD i d).is_weekend ∧
      ((scenario_df p o df).getD i d).year = (df.getD i d).year ∧
      ((scenario_df p o df).getD i d).month = (df.getD i d).month ∧
      ((scenario_df p o df).getD i d).day_of_week = (df.getD i d).day_of_week ∧
      ((scenario_df p o df).getD i d).quarter = (df.getD i d).quarter ∧
      ((scenario_df p o df).getD i d).lag_1 = (df.getD i d).lag_1 ∧
      ((scenario_df p o df).getD i d).lag_7 = (df.getD i d).lag_7 ∧
      ((scenario_df p o df).getD i d).lag_30 = (df.getD i d).lag_30 ∧
      ((scenario_df p o df).getD i d).roll_mean_7 = (df.getD i d).roll_mean_7 ∧
      ((scenario_df p o df).getD i d).roll_mean_30 = (df.getD i d).roll_mean_30 ∧
      ((scenario_df p o df).getD i d).roll_std_7 = (df.getD i d).roll_std_7 ∧
      ((scenario_df p o df).getD i d).roll_std_30 = (df.getD i d).roll_std_30 := by
  refine ⟨?_, by simp [scenario_df], ?_⟩
  · have hid : ∀ r, scenarioRow 0 0 r = r := by intro r; simp [scenarioRow]
    rw [scenario_df, show scenarioRow 0 0 = id from funext hid, List.map_id]
  · intro d i hi
    rw [scenario_df, getD_map_of_lt _ _ _ _ d hi]
    simp [scenarioRow]

/-- Witness for C7: one concrete row, promotion +50%, oil +10%,
index 0. -/
theorem scenario_transform_exact_witness :
    (0 : ℕ) < ([sampleFeatureRow] : List FeatureRow).length ∧
    (((scenario_df 50 10 [sampleFeatureRow]).getD 0 sampleFeatureRow).promo_count
        = (([sampleFeatureRow] : List FeatureRow).getD 0 sampleFeatureRow).promo_count * (1 + 50 / 100) ∧
     ((scenario_df 50 10 [sampleFeatureRow]).getD 0 sampleFeatureRow).oil_price
        = (([sampleFeatureRow] : List FeatureRow).getD 0 sampleFeatureRow).oil_price * (1 + 10 / 100) ∧
     ((scenario_df 50 10 [sampleFeatureRow]).getD 0 sampleFeatureRow).is_holiday
        = (([sampleFeatureRow] : List FeatureRow).getD 0 sampleFeatureRow).is_holiday ∧
     ((scenario_df 50 10 [sampleFeatureRow]).getD 0 sampleFeatureRow).is_weekend
        = (([sampleFeatureRow] : List FeatureRow).getD 0 sampleFeatureRow).is_weekend ∧
     ((scenario_df 50 10 [sampleFeatureRow]).getD 0 sampleFeatureRow).year
        = (([sampleFeatureRow] : List FeatureRow).getD 0 sampleFeatureRow).year ∧
     ((scenario_df 50 10 [sampleFeatureRow]).getD 0 sampleFeatureRow).month
        = (([sampleFeatureRow] : List FeatureRow).getD 0 sampleFeatureRow).month ∧
     ((scenario_df 50 10 [sampleFeatureRow]).getD 0 sampleFeatureRow).day_of_week
        = (([sampleFeatureRow] : List FeatureRow).getD 0 sampleFeatureRow).day_of_week ∧
     ((scenario_df 50 10 [sampleFeatureRow]).getD 0 sampleFeatureRow).quarter
        = (([sampleFeatureRow] : List FeatureRow).getD 0 sampleFeatureRow).quarter ∧
     ((scenario_df 50 10 [sampleFeatureRow]).getD 0 sampleFeatureRow).lag_1
        = (([sampleFeatureRow] : List FeatureRow).getD 0 sampleFeatureRow).lag_1 ∧
     ((scenario_df 50 10 [sampleFeatureRow]).getD 0 sampleFeatureRow).lag_7
        = (([sampleFeatureRow] : List FeatureRow).getD 0 sampleFeatureRow).lag_7 ∧
     ((scenario_df 50 10 [sampleFeatureRow]).getD 0 sampleFeatureRow).lag_30
        = (([sampleFeatureRow] : List FeatureRow).getD 0 sampleFeatureRow).lag_30 ∧
     ((scenario_df 50 10 [sampleFeatureRow]).getD 0 sampleFeatureRow).roll_mean_7
        = (([sampleFeatureRow] : List FeatureRow).getD 0 sampleFeatureRow).roll_mean_7 ∧
     ((scenario_df 50 10 [sampleFeatureRow]).getD 0 sampleFeatureRow).roll_mean_30
        = (([sampleFeatureRow] : List FeatureRow).getD 0 sampleFeatureRow).roll_mean_30 ∧
     ((scenario_df 50 10 [sampleFeatureRow]).getD 0 sampleFeatureRow).roll_std_7
        = (([sampleFeatureRow] : List FeatureRow).getD 0 sampleFeatureRow).roll_std_7 ∧
     ((scenario_df 50 10 [sampleFeatureRow]).getD 0 sampleFeatureRow).roll_std_30
        = (([sampleFeatureRow] : List FeatureRow).getD 0 sampleFeatureRow).roll_std_30) :=
  ⟨by decide, (scenario_transform_exact 50 10 [sampleFeatureRow]).2.2 sampleFeatureRow 0 (by decide)⟩

/-- C8: for a non-empty lag-1 history the baseline predictor succeeds
and returns an array of exactly the requested length; every position
beyond the available history is filled with the last available element
(edge-value repetition). -/
theorem baseline_pad_spec (lag1 : List ℚ) (n : ℕ) (hne : lag1 ≠ []) :
    ∃ bp, baselinePred lag1 n = some bp ∧ bp.length = n ∧
      ∀ i : ℕ, lag1.length ≤ i → i < n → bp.getD i 0 = lag1.getLast hne := by
  have hlen0 : 0 < lag1.length := List.length_pos.mpr hne
  rcases Nat.eq_zero_or_pos n with h0 | hpos
  · subst h0
    refine ⟨[], ?_, rfl, fun i _ h => absurd h (Nat.not_lt_zero i)⟩
    simp only [baselinePred, takeLastPy, if_pos rfl]
    rw [if_neg (by omega)]
    simp
  · by_cases hle : n ≤ lag1.length
    · have hb : (takeLastPy lag1 n).length = n := by
        rw [takeLastPy, if_neg (by omega)]
        rw [List.length_drop]
        omega
      refine ⟨(takeLastPy lag1 n).take n, ?_, ?_, fun i h1 h2 => absurd h1 (by omega)⟩
      · simp only [baselinePred]
        rw [if_neg (by omega)]
      · rw [List.length_take, hb]
        omega
    · push_neg at hle
      have hb : takeLastPy lag1 n = lag1 := by
        rw [takeLastPy, if_neg (by omega), Nat.sub_eq_zero_of_le (le_of_lt hle),
          List.drop_zero]
      refine ⟨(lag1 ++ List.replicate (n - lag1.length) (lag1.getLast hne)).take n,
        ?_, ?_, ?_⟩
      · simp only [baselinePred]
        rw [hb, if_pos hle, padEdge, List.getLast?_eq_getLast lag1 hne]
        simp [Option.map]
      · rw [List.length_take, List.length_append, List.length_replicate]
        omega
      · intro i h1 h2
        have hlt : i - lag1.length < n - lag1.length := by omega
        rw [List.getD_eq_getElem?_getD, List.getElem?_take, if_pos h2,
          List.getElem?_append_right h1, List.getElem?_replicate, if_pos hlt]
        rfl

/-- Witness for C8: history `[1, 2]`, horizon 4. -/
theorem baseline_pad_spec_witness :
    ([(1 : ℚ), 2] ≠ []) ∧
    (∃ bp, baselinePred [(1 : ℚ), 2] 4 = some bp ∧ bp.length = 4 ∧
      ∀ i : ℕ, ([(1 : ℚ), 2] : List ℚ).length ≤ i → i < 4 →
        bp.getD i 0 = ([(1 : ℚ), 2] : List ℚ).getLast (by simp)) :=
  ⟨by simp, baseline_pad_spec [1, 2] 4 (by simp)⟩

/-! ### Fill-pipeline lemmas -/

/-- `ffillAux` preserves the column length. -/
theorem ffillAux_length (a : Option ℚ) (xs : List (Option ℚ)) :
    (ffillAux a xs).length = xs.length := by
  induction xs generalizing a with
  | nil => rfl
  | cons y rest ih => cases y <;> simp [ffillAux, ih]

/-- `bfillCol` preserves the column length. -/
theorem bfillCol_length (xs : List (Option ℚ)) :
    (bfillCol xs).length = xs.length := by
  simp [bfillCol, ffillCol, ffillAux_length]

/-- `fillPipeline` preserves the column length. -/
theorem fillPipeline_length (xs : List (Option ℚ)) :
    (fillPipeline xs).length = xs.length := by
  simp [fillPipeline, fillZero, ffillCol, ffillAux_length, bfillCol_length]

/-- `shiftCol` preserves the column length. -/
theorem shiftCol_length (k : ℕ) (xs : List ℚ) :
    (shiftCol k xs).length = xs.length := by
  simp [shiftCol]
  omega

/-- `rollingAgg` preserves the column length. -/
theorem rollingAgg_length (w : ℕ) (agg : List ℚ → ℚ) (xs : List (Option ℚ)) :
    (rollingAgg w agg xs).length = xs.length := by
  simp [rollingAgg]

/-- Helper: `getD` with default `none` hitting `some v` means the raw
element is `some (some v)` (in particular the index is in range). -/
theorem getD_none_eq_some {xs : List (Option ℚ)} {i : ℕ} {v : ℚ} :
    xs.getD i none = some v ↔ xs[i]? = some (some v) := by
  rw [List.getD_eq_getElem?_getD]
  cases hx : xs[i]? with
  | none => simp
  | some o => simp

/-- Helper: an index carrying a non-`NaN` value is in range. -/
theorem getD_some_lt {xs : List (Option ℚ)} {i : ℕ} {v : ℚ}
    (h : xs.getD i none = some v) : i < xs.length := by
  by_contra hc
  push_neg at hc
  rw [List.getD_eq_default _ _ hc] at h
  exact Option.noConfusion h

/-- Forward fill never changes an entry that is already defined. -/
theorem ffillAux_getD_some (xs : List (Option ℚ)) :
    ∀ (a : Option ℚ) (i : ℕ) (v : ℚ), xs.getD i none = some v →
      (ffillAux a xs).getD i none = some v := by
  induction xs with
  | nil => intro a i v h; simp [List.getD] at h
  | cons y rest ih =>
    intro a i v h
    cases i with
    | zero =>
      cases y with
      | none => simp [List.getD_cons_zero] at h
      | some w => simpa [ffillAux] using h
    | succ j =>
      rw [List.getD_cons_succ] at h
      cases y with
      | none => simpa [ffillAux] using ih a j v h
      | some w => simpa [ffillAux] using ih (some w) j v h

/-- Backward fill never changes an entry that is already defined. -/
theorem bfillCol_getD_some (xs : List (Option ℚ)) (i : ℕ) (v : ℚ)
    (h : xs.getD i none = some v) : (bfillCol xs).getD i none = some v := by
  have hi : i < xs.length := getD_some_lt h
  have hlen : (ffillCol xs.reverse).length = xs.length := by
    simp [ffillCol, ffillAux_length]
  have hrev : xs.reverse.getD (xs.length - 1 - i) none = some v := by
    rw [getD_none_eq_some, List.getElem?_reverse (by omega)]
    have harith : xs.length - 1 - (xs.length - 1 - i) = i := by omega
    rw [harith]
    exact getD_none_eq_some.mp h
  have hf := ffillAux_getD_some xs.reverse none (xs.length - 1 - i) v hrev
  rw [bfillCol, getD_none_eq_some, List.getElem?_reverse (by rw [hlen]; omega)]
  rw [hlen]
  exact getD_none_eq_some.mp hf

/-- Zero fill never changes an entry that is already defined. -/
theorem fillZero_getD_some (xs : List (Option ℚ)) (i : ℕ) (v : ℚ)
    (h : xs.getD i none = some v) : (fillZero xs).getD i none = some v := by
  have hi : i < xs.length := getD_some_lt h
  rw [fillZero, getD_map_of_lt _ _ _ _ none hi, h]
  rfl

/-- The final imputation pass never changes an entry that is already
defined. -/
theorem fillPipeline_getD_some (xs : List (Option ℚ)) (i : ℕ) (v : ℚ)
    (h : xs.getD i none = some v) : (fillPipeline xs).getD i none = some v :=
  fillZero_getD_some _ _ _ (ffillAux_getD_some _ none _ _ (bfillCol_getD_some _ _ _ h))

/-- C5: the single final imputation pass `bfill` → `ffill` → `fillna(0)`
(in that order, see `fillPipeline`) is total and row-preserving: on any
column it keeps the length (no row dropped) and leaves every entry
defined; in particular the engineered `lag_k` and `roll_mean_w` columns
have one defined value per date of the sales history. -/
theorem fill_pipeline_total (xs : List (Option ℚ)) (k w : ℕ) (sales : List ℚ) :
    ((fillPipeline xs).length = xs.length ∧
      ∀ y ∈ fillPipeline xs, y.isSome = true) ∧
    ((lagCol k sales).length = sales.length ∧
      ∀ y ∈ lagCol k sales, y.isSome = true) ∧
    ((rollMeanCol w sales).length = sales.length ∧
      ∀ y ∈ rollMeanCol w sales, y.isSome = true) := by
  have htot : ∀ zs : List (Option ℚ), ∀ y ∈ fillPipeline zs, y.isSome = true := by
    intro zs y hy
    rw [fillPipeline, fillZero] at hy
    obtain ⟨x, -, rfl⟩ := List.mem_map.mp hy
    rfl
  refine ⟨⟨fillPipeline_length xs, htot xs⟩, ⟨?_, htot _⟩, ⟨?_, htot _⟩⟩
  · rw [lagCol, fillPipeline_length, shiftCol_length]
  · rw [rollMeanCol, fillPipeline_length, rollingAgg_length, shiftCol_length]

/-! ### Lag and rolling-window lemmas -/

/-- Value of `Series.shift(k)` at an in-range position `i ≥ k`. -/
theorem shiftCol_getD (k : ℕ) (xs : List ℚ) (i : ℕ) (hk : k ≤ i)
    (hi : i < xs.length) :
    (shiftCol k xs).getD i none = some (xs.getD (i - k) 0) := by
  have h1 : min k xs.length = k := by omega
  have h2 : (List.replicate k (none : Option ℚ)).length ≤ i := by simp; omega
  rw [shiftCol, h1, getD_none_eq_some, List.getElem?_append_right h2]
  simp only [List.length_replicate, List.getElem?_map, List.getElem?_take]
  rw [if_pos (by omega), List.getElem?_eq_getElem (by omega : i - k < xs.length)]
  simp [List.getD_eq_getElem?_getD,
    List.getElem?_eq_getElem (by omega : i - k < xs.length)]

/-- The rolling window over the shifted sales series is the block of
raw sales values `sales[i-w .. i-1]`, all defined. -/
theorem rollWindow_shift1 (w i : ℕ) (sales : List ℚ) (hw : w ≤ i)
    (hi : i < sales.length) :
    rollWindow w i (shiftCol 1 sales) =
      ((List.range w).map (fun j => sales.getD (i - w + j) 0)).map some := by
  rw [rollWindow, List.map_map]
  refine List.map_congr_left ?_
  intro j hj
  rw [List.mem_range] at hj
  have h1 : 1 ≤ i + 1 - w + j := by omega
  have h2 : i + 1 - w + j < sales.length := by omega
  rw [shiftCol_getD 1 sales _ h1 h2]
  have harith : i + 1 - w + j - 1 = i - w + j := by omega
  rw [harith]
  rfl

/-- Value of `rolling(w).agg` at an in-range position whose window is
fully defined. -/
theorem rollingAgg_getD (w : ℕ) (agg : List ℚ → ℚ) (xs : List (Option ℚ))
    (i : ℕ) (vals : List ℚ) (hi : i < xs.length) (hw : w ≤ i + 1)
    (hwin : rollWindow w i xs = vals.map some) :
    (rollingAgg w agg xs).getD i none = some (agg vals) := by
  rw [rollingAgg, getD_none_eq_some, List.getElem?_map, List.getElem?_range hi]
  rw [Option.map_some', hwin]
  have hall : (vals.map some).all Option.isSome = true := by
    simp [List.all_eq_true]
  rw [if_pos ⟨hw, hall⟩, reduceOption_map_some]

/-- Value of the (pre-fill) rolling mean of the shifted sales series:
the mean of the `w` sales values strictly preceding position `i`. -/
theorem rollingMean_shift1_getD (w : ℕ) (sales : List ℚ) (i : ℕ)
    (hw : w ≤ i) (hi : i < sales.length) :
    (rollingAgg w (fun v => v.sum / v.length) (shiftCol 1 sales)).getD i none =
      some (((List.range w).map (fun j => sales.getD (i - w + j) 0)).sum / w) := by
  rw [rollingAgg_getD w _ _ i ((List.range w).map (fun j => sales.getD (i - w + j) 0))
    (by rw [shiftCol_length]; exact hi) (by omega)
    (rollWindow_shift1 w i sales hw hi)]
  simp

/-- C4: in the engineered feature table, at every date with at least
365 days of prior history the lag features are the raw sales shifted by
their lag (`lag_30[d] = sales[d-30]`) and the rolling mean is taken
over the `w` days strictly preceding `d`
(`roll_mean_7[d] = mean(sales[d-7..d-1])`, excluding `d` itself);
the final imputation pass does not disturb these values. -/
theorem lag_and_rolling_exclude_current (sales : List ℚ) (i : ℕ)
    (hi : i < sales.length) (h365 : 365 ≤ i) :
    (lagCol 30 sales).getD i none = some (sales.getD (i - 30) 0) ∧
    (rollMeanCol 7 sales).getD i none =
      some (((List.range 7).map (fun j => sales.getD (i - 7 + j) 0)).sum / 7) := by
  constructor
  · exact fillPipeline_getD_some _ _ _ (shiftCol_getD 30 sales i (by omega) hi)
  · exact fillPipeline_getD_some _ _ _
      (rollingMean_shift1_getD 7 sales i (by omega) hi)

/-- Witness for C4: a constant sales history of 366 days, at the last
day (index 365). -/
theorem lag_and_rolling_exclude_current_witness :
    (365 < (List.replicate 366 (1 : ℚ)).length ∧ 365 ≤ 365) ∧
    ((lagCol 30 (List.replicate 366 (1 : ℚ))).getD 365 none
        = some ((List.replicate 366 (1 : ℚ)).getD (365 - 30) 0) ∧
     (rollMeanCol 7 (List.replicate 366 (1 : ℚ))).getD 365 none
        = some (((List.range 7).map
            (fun j => (List.replicate 366 (1 : ℚ)).getD (365 - 7 + j) 0)).sum / 7)) :=
  ⟨⟨by rw [List.length_replicate]; omega, le_refl 365⟩,
    lag_and_rolling_exclude_current (List.replicate 366 1) 365
      (by rw [List.length_replicate]; omega) (le_refl 365)⟩

/-- C2 (amended): for `n ≥ 2` the sample confidence interval is the
Student-t interval with `n − 1` degrees of freedom around the sample
mean, with standard error `√(sample variance) / √n`. -/
theorem ci_student_t_formula (tppf : ℚ → ℤ → ℚ) (values : List ℚ)
    (confidence : ℚ) (h2 : 2 ≤ values.length) :
    calculate_confidence_interval tppf values confidence =
      { lower := some ((npMean values : ℝ) -
          Real.sqrt (sampleVar values) / Real.sqrt (values.length : ℝ) *
            ((tppf ((1 + confidence) / 2) ((values.length : ℤ) - 1) : ℚ) : ℝ))
        upper := some ((npMean values : ℝ) +
          Real.sqrt (sampleVar values) / Real.sqrt (values.length : ℝ) *
            ((tppf ((1 + confidence) / 2) ((values.length : ℤ) - 1) : ℚ) : ℝ))
        mean := some (npMean values)
        std_error := some (Real.sqrt (sampleVar values) /
          Real.sqrt (values.length : ℝ)) } := by
  have hne : values.isEmpty = false := by
    cases values with
    | nil => simp at h2
    | cons a l => rfl
  have hlt : ¬values.length < 2 := by omega
  rw [calculate_confidence_interval, seriesMean, semOpt, if_neg (by simp [hne]),
    if_neg hlt]
  simp [Option.map₂]

/-- Witness for C2's amended theorem at `values = [1, 3]`,
`confidence = 1/2`, a constant quantile function `t.ppf = 2`. -/
theorem ci_student_t_formula_witness :
    2 ≤ ([(1 : ℚ), 3] : List ℚ).length ∧
    calculate_confidence_interval (fun _ _ => 2) [(1 : ℚ), 3] (1 / 2) =
      { lower := some ((npMean [(1 : ℚ), 3] : ℝ) -
          Real.sqrt (sampleVar [(1 : ℚ), 3]) /
            Real.sqrt ((([(1 : ℚ), 3] : List ℚ).length : ℕ) : ℝ) * ((2 : ℚ) : ℝ))
        upper := some ((npMean [(1 : ℚ), 3] : ℝ) +
          Real.sqrt (sampleVar [(1 : ℚ), 3]) /
            Real.sqrt ((([(1 : ℚ), 3] : List ℚ).length : ℕ) : ℝ) * ((2 : ℚ) : ℝ))
        mean := some (npMean [(1 : ℚ), 3])
        std_error := some (Real.sqrt (sampleVar [(1 : ℚ), 3]) /
          Real.sqrt ((([(1 : ℚ), 3] : List ℚ).length : ℕ) : ℝ)) } :=
  ⟨by norm_num, ci_student_t_formula (fun _ _ => 2) [1, 3] (1 / 2) (by norm_num)⟩

/-- C2 counterexample: at the single-element list `[5]` (so n = 1 < 2)
`calculate_confidence_interval` does not fail with an error indicator:
it returns the usual 4-tuple, with a defined numeric mean and `NaN`
(undefined) bounds and standard error. -/
theorem ci_single_point_returns_tuple :
    (calculate_confidence_interval (fun _ _ => 0) [(5 : ℚ)] (95 / 100)).mean = some 5 ∧
    (calculate_confidence_interval (fun _ _ => 0) [(5 : ℚ)] (95 / 100)).std_error = none ∧
    (calculate_confidence_interval (fun _ _ => 0) [(5 : ℚ)] (95 / 100)).lower = none ∧
    (calculate_confidence_interval (fun _ _ => 0) [(5 : ℚ)] (95 / 100)).upper = none := by
  rw [calculate_confidence_interval]
  norm_num [seriesMean, semOpt, npMean, Option.map₂]

/-- Characterisation of the effect-size classifier: the source uses
strict comparisons at both thresholds. -/
theorem effectSizeOf_spec (d : ℝ) :
    (effectSizeOf d = "large" ↔ 0.8 < |d|) ∧
    (effectSizeOf d = "medium" ↔ 0.5 < |d| ∧ |d| ≤ 0.8) ∧
    (effectSizeOf d = "small" ↔ |d| ≤ 0.5) := by
  rw [effectSizeOf]
  by_cases h1 : (0.8 : ℝ) < |d|
  · rw [if_pos h1]
    refine ⟨iff_of_true rfl h1, iff_of_false (by decide) ?_,
      iff_of_false (by decide) ?_⟩
    · rintro ⟨-, hb⟩; linarith
    · intro hb; linarith
  · rw [if_neg h1]
    push_neg at h1
    by_cases h2 : (0.5 : ℝ) < |d|
    · rw [if_pos h2]
      exact ⟨iff_of_false (by decide) fun hb => absurd hb (not_lt.mpr h1),
        iff_of_true rfl ⟨h2, h1⟩,
        iff_of_false (by decide) fun hb => absurd h2 (not_lt.mpr hb)⟩
    · rw [if_neg h2]
      push_neg at h2
      exact ⟨iff_of_false (by decide) fun hb => by linarith,
        iff_of_false (by decide) fun hb => by rcases hb with ⟨ha, -⟩; linarith,
        iff_of_true rfl h2⟩

/-- C3 (amended): every successful promotion-impact result classifies
the effect size from Cohen's d (pooled standard deviation) with
*strict* thresholds — `|d| > 0.8` large, `0.5 < |d| ≤ 0.8` medium,
`|d| ≤ 0.5` small (so at `|d| = 0.8` exactly the result is "medium",
not "large") — and, whenever the no-promotion mean is non-zero, the
lift equals `(mean_A − mean_B) / mean_B × 100`. -/
theorem promo_effect_size_and_lift (ttest : List ℚ → List ℚ → ℚ × ℚ)
    (rows : List (ℚ × ℚ)) (hp : promoDays rows ≠ []) (hn : noPromoDays rows ≠ []) :
    ∃ r, test_promotion_impact ttest rows = .ok r ∧
      r.cohens_d = cohensD (promoDays rows) (noPromoDays rows) ∧
      (r.effect_size = "large" ↔ 0.8 < |r.cohens_d|) ∧
      (r.effect_size = "medium" ↔ 0.5 < |r.cohens_d| ∧ |r.cohens_d| ≤ 0.8) ∧
      (r.effect_size = "small" ↔ |r.cohens_d| ≤ 0.5) ∧
      (npMean (noPromoDays rows) ≠ 0 →
        r.lift_percentage =
          some ((npMean (promoDays rows) - npMean (noPromoDays rows)) /
            npMean (noPromoDays rows) * 100)) := by
  rw [test_promotion_impact,
    if_neg (by simp [not_or, List.length_eq_zero, hp, hn])]
  refine ⟨_, rfl, rfl, (effectSizeOf_spec _).1, (effectSizeOf_spec _).2.1,
    (effectSizeOf_spec _).2.2, ?_⟩
  intro hm
  show liftPercentage _ _ = _
  rw [liftPercentage, if_neg hm]

/-- The boundary table for C3: promotion-day sales {13, 14, 15},
no-promotion sales {3, 10, 17}, giving Cohen's d = 4/5 exactly. -/
def promoRows6 : List (ℚ × ℚ) := [(13, 1), (14, 1), (15, 1), (3, 0), (10, 0), (17, 0)]

/-- Witness for C3's amended theorem at the boundary table. -/
theorem promo_effect_size_and_lift_witness :
    promoDays promoRows6 ≠ [] ∧ noPromoDays promoRows6 ≠ [] ∧
    (∃ r, test_promotion_impact (fun _ _ => (0, 0)) promoRows6 = .ok r ∧
      r.cohens_d = cohensD (promoDays promoRows6) (noPromoDays promoRows6) ∧
      (r.effect_size = "large" ↔ 0.8 < |r.cohens_d|) ∧
      (r.effect_size = "medium" ↔ 0.5 < |r.cohens_d| ∧ |r.cohens_d| ≤ 0.8) ∧
      (r.effect_size = "small" ↔ |r.cohens_d| ≤ 0.5) ∧
      (npMean (noPromoDays promoRows6) ≠ 0 →
        r.lift_percentage =
          some ((npMean (promoDays promoRows6) - npMean (noPromoDays promoRows6)) /
            npMean (noPromoDays promoRows6) * 100))) :=
  ⟨by decide, by decide,
    promo_effect_size_and_lift (fun _ _ => (0, 0)) promoRows6 (by decide) (by decide)⟩

/-- C3 counterexample: on `promoRows6` Cohen's d is exactly 0.8
(`(14 − 10) / 5`), so the claimed `|d| ≥ 0.8 ⇒ "large"` demands
"large", but the source's strict `>` yields "medium". -/
theorem promo_effect_size_boundary :
    cohensD (promoDays promoRows6) (noPromoDays promoRows6) = 4 / 5 ∧
    ((test_promotion_impact (fun _ _ => (0, 0)) promoRows6).toOption.map
      PromoImpact.effect_size) = some "medium" := by
  have hfp : promoDays promoRows6 = [13, 14, 15] := by decide
  have hfn : noPromoDays promoRows6 = [3, 10, 17] := by decide
  have hvar : pooledVarQ [(13 : ℚ), 14, 15] [(3 : ℚ), 10, 17] = 25 := by
    norm_num [pooledVarQ, sampleVar, npMean]
  have hstd : pooledStd [(13 : ℚ), 14, 15] [(3 : ℚ), 10, 17] = 5 := by
    rw [pooledStd, hvar, show ((25 : ℚ) : ℝ) = (5 : ℝ) ^ 2 by norm_num]
    exact Real.sqrt_sq (by norm_num)
  have hd : cohensD (promoDays promoRows6) (noPromoDays promoRows6) = 4 / 5 := by
    rw [hfp, hfn, cohensD, hstd]
    norm_num [npMean]
  refine ⟨hd, ?_⟩
  rw [test_promotion_impact, if_neg (by rw [hfp, hfn]; norm_num)]
  simp only [Except.toOption, Option.map_some']
  show some (effectSizeOf _) = _
  rw [hd, effectSizeOf, abs_of_nonneg (by norm_num : (0 : ℝ) ≤ 4 / 5),
    if_neg (by norm_num), if_pos (by norm_num)]

/-- The 12-date target column (no missing values) of the C9 failing
input. -/
def mismatchTarget : List (Option ℚ) :=
  [some 0, some 1, some 2, some 3, some 4, some 5,
   some 6, some 7, some 8, some 9, some 10, some 11]

/-- The C9 failing input's single feature: `promo_count` with one
missing entry and 11 non-missing observations (> 10). -/
def mismatchFeature : List (String × List (Option ℚ)) :=
  [("promo_count",
    [none, some 0, some 1, some 2, some 3, some 4, some 5,
     some 6, some 7, some 8, some 9, some 10])]

/-- C9 (code bug): a feature with more than 10 non-missing observations
is promised a computed correlation and p-value, but because the source
applies `dropna()` to the target and the feature *independently*, the
two series handed to `pearsonr` have different lengths (12 vs 11) and
the call raises instead of returning any table. -/
theorem corr_independent_dropna_raises :
    ((mismatchFeature.headD ("", [])).2.filter (fun x => x.isSome)).length = 11 ∧
    (dropNA mismatchTarget).length = 12 ∧
    calculate_correlations (fun _ _ => (1, 0)) mismatchTarget mismatchFeature 10 =
      .error "x and y must have the same length." := by
  refine ⟨rfl, rfl, rfl⟩

/-- C10: the forecast-interval construction is invariant under
replacing the historical-error sample by any other sample with the same
standard deviation — the computed error mean is dead code — and every
returned interval is centred on the raw forecast (no bias correction). -/
theorem forecast_intervals_ignore_error_mean (zppf : ℚ → ℚ)
    (forecasts e1 e2 : List ℚ) (confidence : ℚ)
    (hstd : npStd e1 = npStd e2) :
    forecast_confidence_intervals zppf forecasts e1 confidence =
      forecast_confidence_intervals zppf forecasts e2 confidence ∧
    ∀ r ∈ forecast_confidence_intervals zppf forecasts e1 confidence,
      (r.lower_bound + r.upper_bound) / 2 = (r.forecast : ℝ) := by
  constructor
  · rw [forecast_confidence_intervals, forecast_confidence_intervals, hstd]
  · intro r hr
    rw [forecast_confidence_intervals] at hr
    obtain ⟨f, -, rfl⟩ := List.mem_map.mp hr
    simp only
    ring

/-- Witness for C10: error samples `[0, 2]` and `[5, 7]` have different
means (1 vs 6) but the same standard deviation (1), and the function
cannot tell them apart. -/
theorem forecast_intervals_ignore_error_mean_witness :
    npStd [(0 : ℚ), 2] = npStd [(5 : ℚ), 7] ∧
    (forecast_confidence_intervals (fun _ => 2) [(10 : ℚ)] [(0 : ℚ), 2] (95 / 100) =
       forecast_confidence_intervals (fun _ => 2) [(10 : ℚ)] [(5 : ℚ), 7] (95 / 100) ∧
     ∀ r ∈ forecast_confidence_intervals (fun _ => 2) [(10 : ℚ)] [(0 : ℚ), 2] (95 / 100),
       (r.lower_bound + r.upper_bound) / 2 = (r.forecast : ℝ)) := by
  have hstd : npStd [(0 : ℚ), 2] = npStd [(5 : ℚ), 7] := by
    rw [npStd, npStd]
    norm_num [popVar, npMean]
  exact ⟨hstd, forecast_intervals_ignore_error_mean (fun _ => 2) [10] [0, 2] [5, 7]
    (95 / 100) hstd⟩

end RevForecast
